import Mathlib

/-!
Verification of the session-key acquisition and key-matching subsystem
(`src/python/twitter/mesos/session_key_helper.py`).

The external collaborators (ODS directory, paramiko ssh-agent, base64/RSAKey
decoding, the wall clock) are modelled as fields of an `Env` record; the
functions of `SessionKeyHelper` are translated statement by statement.
Python exceptions are modelled with `Except`; the wall clock is a sequence
of readings `clock : Nat → Nat`, consumed left to right by successive calls
to `get_timestamp` (a counter is threaded through the stateful functions).
-/

namespace SessionKeyHelper

/-- An opaque handle to a private key held by the ssh-agent
(paramiko `AgentKey`). The core never sees key bytes. -/
structure AgentKey where
  id : Nat
deriving DecidableEq, Repr

/-- A directory public key, as built by `RSAKey(data=base64.decodestring(...))`:
we keep the decoded blob. -/
structure RSAKeyM where
  data : String
deriving DecidableEq, Repr

/-- The thrift `SessionKey` struct: fields start unset (`none`). -/
structure SessionKey where
  user : String
  nonce : Option Nat
  nonceSig : Option String
deriving DecidableEq, Repr

/-- The exception classes that can cross `SessionKeyHelper` function
boundaries.  `LDAPError`, `AgentError`, `AuthorizationError` are the classes
declared in the source; `otherError` stands for any other Python exception
propagating through (e.g. an `SSHException` or `IndexError` raised by a
library call). -/
inductive PyErr where
  | ldapError (msg : String)
  | agentError (msg : String)
  | authorizationError (msg : String)
  | otherError (msg : String)
deriving DecidableEq, Repr

/-- `str(e)` of the exception. -/
def pyErrMsg : PyErr → String
  | .ldapError m => m
  | .agentError m => m
  | .authorizationError m => m
  | .otherError m => m

/-- The external world as seen by `SessionKeyHelper`. -/
structure Env where
  /-- `ods.get_user(username)`: `none` when the directory does not know the
  identity, otherwise an (opaque) user record. -/
  odsGetUser : String → Option String
  /-- `ODS.query_keys(username, ods)`: the raw key strings registered in the
  directory for the identity. -/
  odsQueryKeys : String → List String
  /-- `RSAKey(data=base64.decodestring(tok))`: decoding by the external
  base64/paramiko libraries; may raise. -/
  parseRSAKey : String → Except String RSAKeyM
  /-- `Agent()` followed by `agent.get_keys()`: either the agent connection
  fails with an `SSHException` (message), or the list of loaded keys in
  agent-reported order. -/
  agent : Except String (List AgentKey)
  /-- `key.sign_ssh_data(None, message)`: ask the agent to sign `message`
  with the key; may raise. -/
  sign : AgentKey → String → Except String String
  /-- `ldap_key.verify_ssh_sig(message, signed_message)`. -/
  verify : RSAKeyM → String → String → Bool
  /-- `os.getenv('SSH_AUTH_SOCK')`. -/
  sshAuthSock : Option String
  /-- Successive readings of `int(time.time() * 1000)`. -/
  clock : Nat → Nat

/-- `get_timestamp`: read the wall clock in milliseconds; the counter
selects which reading this call observes. -/
def get_timestamp (env : Env) (n : Nat) : Nat × Nat :=
  (env.clock n, n + 1)

/-- Whether the first character list is an initial segment of the second
(char-level model of Python `str.startswith`). -/
def charsStartWith : List Char → List Char → Bool
  | [], _ => true
  | _ :: _, [] => false
  | a :: as, b :: bs => a == b && charsStartWith as bs

/-- Python `key.startswith(p)`. -/
def pyStartsWith (s p : String) : Bool :=
  charsStartWith p.data s.data

/-- Split a character list on runs of spaces, accumulating the current
token in reverse (char-level model of Python `str.split()`). -/
def pySplitAux : List Char → List Char → List String
  | [], acc => if acc.isEmpty then [] else [String.mk acc.reverse]
  | c :: cs, acc =>
    if c == ' ' then
      if acc.isEmpty then pySplitAux cs []
      else String.mk acc.reverse :: pySplitAux cs []
    else pySplitAux cs (c :: acc)

/-- Python `s.split()`: tokens separated by whitespace runs. -/
def pySplit (s : String) : List String :=
  pySplitAux s.data []

/-- Python `key.split()[1]`: take the second token, raising `IndexError`
when there is none. -/
def pySplitIndex1 (s : String) : Except String String :=
  match pySplit s with
  | _ :: t :: _ => .ok t
  | _ => .error "IndexError: list index out of range"

/-- The loop building `all_ldap_pubkeys`: keep only records starting with
`ssh-rsa`, decode each kept record.  (The source's `if pkey:` test is always
true — a freshly constructed paramiko key object is truthy — so it adds no
branch here.) -/
def parse_ldap_pubkeys (env : Env) : List String → Except String (List RSAKeyM)
  | [] => .ok []
  | key :: rest =>
    if pyStartsWith key "ssh-rsa" then
      match pySplitIndex1 key with
      | .error e => .error e
      | .ok tok =>
        match env.parseRSAKey tok with
        | .error e => .error e
        | .ok pkey =>
          match parse_ldap_pubkeys env rest with
          | .error e => .error e
          | .ok pkeys => .ok (pkey :: pkeys)
    else
      parse_ldap_pubkeys env rest

/-- The fixed challenge message from the matching loop. -/
def challenge_message : String := "this is a very important message to keep safe."

/-- The nested matching loop of `get_ods_key`: for each agent key in order,
sign the challenge once, and verify that signature against each directory
key in order; return on the first agent key whose signature verifies.
The second component records, in order, the agent keys that were asked to
sign (the trace of `sign_ssh_data` calls made by the loop). -/
def find_matching_key (env : Env) (pubs : List RSAKeyM) :
    List AgentKey → Except String (Option AgentKey) × List AgentKey
  | [] => (.ok none, [])
  | key :: rest =>
    match env.sign key challenge_message with
    | .error e => (.error e, [key])
    | .ok signed_glob =>
      if pubs.any (fun ldap_key => env.verify ldap_key challenge_message signed_glob) then
        (.ok (some key), [key])
      else
        let r := find_matching_key env pubs rest
        (r.1, key :: r.2)

/-- Message of the `AgentError` raised when `Agent()` itself fails. -/
def agent_unreachable_msg (e : String) : String :=
  "Could not talk to SSH agent: " ++ e

/-- Message of the `AgentError` raised after the loop when `SSH_AUTH_SOCK`
is unset. -/
def ssh_auth_sock_msg : String :=
  "Cannot talk to your ssh-agent because your SSH_AUTH_SOCK environment variable is\n         not set up properly.  Make sure you have ssh agent forwarding set up correctly in\n         your ssh config."

/-- Message of the `AgentError` raised after the loop when `SSH_AUTH_SOCK`
is set. -/
def no_signable_keys_msg : String :=
  "Unable to find any signable SSH keys.  Make sure you\x27ve generated your SSH\n         keys and uploaded them to ods.twitter.com."

/-- `get_ods_key(username)`: consult the directory, decode its RSA records,
open the agent, and run the matching loop; on no match raise an
`AgentError` whose message depends on `SSH_AUTH_SOCK`. -/
def get_ods_key (env : Env) (username : String) : Except PyErr (Option AgentKey) :=
  match env.odsGetUser username with
  | none => .error (.ldapError ("Could not query " ++ username ++ " from ODS!"))
  | some _ =>
    match parse_ldap_pubkeys env (env.odsQueryKeys username) with
    | .error e => .error (.otherError e)
    | .ok all_ldap_pubkeys =>
      match env.agent with
      | .error e => .error (.agentError (agent_unreachable_msg e))
      | .ok keys =>
        match (find_matching_key env all_ldap_pubkeys keys).1 with
        | .error e => .error (.otherError e)
        | .ok (some key) => .ok (some key)
        | .ok none =>
          match env.sshAuthSock with
          | none => .error (.agentError ssh_auth_sock_msg)
          | some _ => .error (.agentError no_signable_keys_msg)

/-- `sign_session(session_key, username)`: match a key, read the clock,
sign the decimal string of the timestamp, then (and only then) write the
`nonce` and `nonceSig` fields.  Returns (outcome, state of `session_key`
when the function exits, clock counter). -/
def sign_session (env : Env) (session_key : SessionKey) (username : String) (n : Nat) :
    Except PyErr Unit × SessionKey × Nat :=
  match get_ods_key env username with
  | .error e => (.error e, session_key, n)
  | .ok none =>
    (.error (.authorizationError ("Could not find valid key for " ++ username)),
     session_key, n)
  | .ok (some key) =>
    let tsn := get_timestamp env n
    let ts := tsn.1
    let message := toString ts
    match env.sign key message with
    | .error e => (.error (.otherError e), session_key, tsn.2)
    | .ok signed_glob =>
      (.ok (), { session_key with nonce := some ts, nonceSig := some signed_glob }, tsn.2)

/-- `acquire_session_key(owner)`: build `SessionKey(user=owner)`, try
`sign_session`, and on any exception log two warnings and fall back to the
sentinel credential stamped with a fresh timestamp.  Returns the credential
and the list of warnings logged. -/
def acquire_session_key (env : Env) (owner : String) : SessionKey × List String :=
  let key : SessionKey := { user := owner, nonce := none, nonceSig := none }
  match sign_session env key owner 0 with
  | (.ok _, key1, _) => (key1, [])
  | (.error e, key1, n1) =>
    let tsn := get_timestamp env n1
    ({ key1 with nonce := some tsn.1, nonceSig := some "UNAUTHENTICATED" },
     ["Cannot use SSH auth: " ++ pyErrMsg e,
      "Attempting un-authenticated communication"])

/-- Resource events on the agent connection, for the resource-scoping
analysis of `get_ods_key`. -/
inductive REvent where
  | agentOpen
  | agentClose
deriving DecidableEq, Repr

/-- The agent-connection events of one run of `get_ods_key`, mirroring its
control flow: a connection is opened exactly when `Agent()` succeeds, and
the source contains no `close()` call on any subsequent path, so no
`agentClose` event is ever emitted. -/
def get_ods_key_events (env : Env) (username : String) : List REvent :=
  match env.odsGetUser username with
  | none => []
  | some _ =>
    match parse_ldap_pubkeys env (env.odsQueryKeys username) with
    | .error _ => []
    | .ok _ =>
      match env.agent with
      | .error _ => []
      | .ok _ => [REvent.agentOpen]

deriving instance DecidableEq for Except

set_option maxRecDepth 8000

/-! Concrete environments used as witnesses and counterexamples. -/

/-- A fully healthy world: the directory knows every user and lists one
non-RSA and one RSA record; the agent holds two keys; only key 1's
challenge signature verifies against the directory key. -/
def envOK : Env where
  odsGetUser := fun _ => some "rec"
  odsQueryKeys := fun _ => ["ssh-dss XXXX", "ssh-rsa AAAA"]
  parseRSAKey := fun d => .ok { data := d }
  agent := .ok [{ id := 0 }, { id := 1 }]
  sign := fun k m => .ok (toString k.id ++ ":" ++ m)
  verify := fun _ _ s => s == "1:" ++ challenge_message
  sshAuthSock := some "/tmp/sock"
  clock := fun n => 1000 + n

/-- Like `envOK` but the directory knows nobody. -/
def envBad : Env := { envOK with odsGetUser := fun _ => none }

/-- Like `envOK` but no challenge signature ever verifies. -/
def envNoMatch : Env := { envOK with verify := fun _ _ _ => false }

/-- Like `envNoMatch` but with `SSH_AUTH_SOCK` unset. -/
def envNoSock : Env := { envNoMatch with sshAuthSock := none }

/-- Like `envOK` but `Agent()` raises. -/
def envUnreach : Env := { envOK with agent := .error "socket missing" }

/-- Like `envOK` but the wall clock reads differently. -/
def envClock2 : Env := { envOK with clock := fun n => 5000 + n }

/-! Helper lemmas shared between the claim theorems. -/

/-- `sign_session` mutates the passed credential on no error path: the
exiting state equals the initial state whenever the outcome is an error. -/
theorem sign_session_error_unchanged (env : Env) (sk : SessionKey) (u : String)
    (n : Nat) (e : PyErr) (h : (sign_session env sk u n).1 = .error e) :
    (sign_session env sk u n).2.1 = sk := by
  unfold sign_session at h ⊢
  split at h <;> first | rfl | (dsimp only at h ⊢; split at h <;> simp_all)

/-- Claim C1: `acquire_session_key` never raises; whenever `sign_session`
fails for any reason, it logs two warnings (the cause, then that
unauthenticated communication will be attempted) and returns a credential
owned by the given identity whose nonce is the timestamp read at fallback
time and whose signature is the sentinel `UNAUTHENTICATED`.  (The model of
`acquire_session_key` is a total function, so no error escapes it.) -/
theorem acquire_session_key_fallback (env : Env) (owner : String) (e : PyErr)
    (sk1 : SessionKey) (n1 : Nat)
    (h : sign_session env { user := owner, nonce := none, nonceSig := none } owner 0 =
      (.error e, sk1, n1)) :
    acquire_session_key env owner =
      ({ user := owner, nonce := some (env.clock n1), nonceSig := some "UNAUTHENTICATED" },
       ["Cannot use SSH auth: " ++ pyErrMsg e,
        "Attempting un-authenticated communication"]) := by
  have hsk : sk1 = { user := owner, nonce := none, nonceSig := none } := by
    have h2 := sign_session_error_unchanged env
      { user := owner, nonce := none, nonceSig := none } owner 0 e (by rw [h])
    rw [h] at h2
    exact h2
  unfold acquire_session_key
  dsimp only
  rw [h, hsk]
  rfl

/-- Witness for `acquire_session_key_fallback` at a concrete world in which
the directory does not know the user. -/
theorem acquire_session_key_fallback_witness :
    acquire_session_key envBad "alice" =
      ({ user := "alice", nonce := some (envBad.clock 0), nonceSig := some "UNAUTHENTICATED" },
       ["Cannot use SSH auth: " ++ pyErrMsg (.ldapError "Could not query alice from ODS!"),
        "Attempting un-authenticated communication"]) :=
  acquire_session_key_fallback envBad "alice" (.ldapError "Could not query alice from ODS!")
    { user := "alice", nonce := none, nonceSig := none } 0 (by decide)

/-- If every agent key before index `i` signs the challenge but fails
verification against every directory key, and key `i`'s challenge signature
verifies against some directory key, then the matching loop returns key `i`
and the signing trace is exactly the keys up to and including `i`. -/
theorem find_matching_key_first (env : Env) (pubs : List RSAKeyM)
    (keys : List AgentKey) (i : Nat) (hi : i < keys.length)
    (hprev : ∀ j (hj : j < i), ∃ t,
      env.sign (keys.get ⟨j, Nat.lt_trans hj hi⟩) challenge_message = .ok t ∧
      pubs.any (fun ldap_key => env.verify ldap_key challenge_message t) = false)
    (s : String)
    (hsig : env.sign (keys.get ⟨i, hi⟩) challenge_message = .ok s)
    (hver : pubs.any (fun ldap_key => env.verify ldap_key challenge_message s) = true) :
    find_matching_key env pubs keys = (.ok (some (keys.get ⟨i, hi⟩)), keys.take (i + 1)) := by
  induction keys generalizing i with
  | nil => exact absurd hi (Nat.not_lt_zero i)
  | cons k rest ih =>
    cases i with
    | zero =>
      dsimp only [List.get] at hsig ⊢
      unfold find_matching_key
      rw [hsig]
      simp [hver, List.take]
    | succ i =>
      obtain ⟨t, hs0, hv0⟩ := hprev 0 (Nat.succ_pos i)
      dsimp only [List.get] at hs0 hv0 hsig ⊢
      unfold find_matching_key
      rw [hs0]
      simp only [hv0, Bool.false_eq_true, if_false, List.take]
      rw [ih i (Nat.lt_of_succ_lt_succ hi)
        (fun j hj => hprev (j + 1) (Nat.succ_lt_succ hj)) hsig]

/-- Claim C2: the key matcher iterates agent keys in agent-reported order,
signs the fixed challenge once per agent key, checks that signature against
the directory keys in directory-reported order, and returns the first agent
key whose signature verifies, without signing any later agent key; under
these conditions `get_ods_key` returns that key. -/
theorem get_ods_key_first_match (env : Env) (u r : String) (pubs : List RSAKeyM)
    (keys : List AgentKey) (i : Nat) (hi : i < keys.length) (s : String)
    (husr : env.odsGetUser u = some r)
    (hparse : parse_ldap_pubkeys env (env.odsQueryKeys u) = .ok pubs)
    (hagent : env.agent = .ok keys)
    (hprev : ∀ j (hj : j < i), ∃ t,
      env.sign (keys.get ⟨j, Nat.lt_trans hj hi⟩) challenge_message = .ok t ∧
      pubs.any (fun ldap_key => env.verify ldap_key challenge_message t) = false)
    (hsig : env.sign (keys.get ⟨i, hi⟩) challenge_message = .ok s)
    (hver : pubs.any (fun ldap_key => env.verify ldap_key challenge_message s) = true) :
    find_matching_key env pubs keys = (.ok (some (keys.get ⟨i, hi⟩)), keys.take (i + 1)) ∧
    get_ods_key env u = .ok (some (keys.get ⟨i, hi⟩)) := by
  have hf := find_matching_key_first env pubs keys i hi hprev s hsig hver
  refine ⟨hf, ?_⟩
  simp only [get_ods_key, husr, hparse, hagent, hf]

/-- Witness for `get_ods_key_first_match`: in `envOK` the first agent key
fails verification and the second succeeds, so the matcher selects key 1
after signing with both. -/
theorem get_ods_key_first_match_witness :
    find_matching_key envOK [{ data := "AAAA" }] [{ id := 0 }, { id := 1 }] =
      (.ok (some { id := 1 }), [{ id := 0 }, { id := 1 }]) ∧
    get_ods_key envOK "alice" = .ok (some { id := 1 }) := by
  have hi : 1 < ([{ id := 0 }, { id := 1 }] : List AgentKey).length := by decide
  have hprev : ∀ j (hj : j < 1), ∃ t,
      envOK.sign (([{ id := 0 }, { id := 1 }] : List AgentKey).get ⟨j, Nat.lt_trans hj hi⟩)
        challenge_message = .ok t ∧
      ([({ data := "AAAA" } : RSAKeyM)].any
        (fun ldap_key => envOK.verify ldap_key challenge_message t)) = false := by
    intro j hj
    have hj0 : j = 0 := Nat.lt_one_iff.mp hj
    subst hj0
    exact ⟨"0:" ++ challenge_message,
      show envOK.sign { id := 0 } challenge_message = .ok ("0:" ++ challenge_message) by decide,
      by decide⟩
  have h := get_ods_key_first_match envOK "alice" "rec" [{ data := "AAAA" }]
    [{ id := 0 }, { id := 1 }] 1 hi ("1:" ++ challenge_message)
    rfl (by decide) rfl hprev
    (show envOK.sign { id := 1 } challenge_message = .ok ("1:" ++ challenge_message) by decide)
    (by decide)
  exact h

/-- Claim C3: on success, `sign_session` reads the clock once, has the
matched key sign exactly the decimal string of that reading, and stores
that reading as the nonce and the produced signature in the credential;
so a non-sentinel credential carries a nonce equal to the signing-time
timestamp and a signature over exactly that nonce's decimal string. -/
theorem sign_session_success (env : Env) (sk : SessionKey) (u : String) (n : Nat)
    (sk' : SessionKey) (n' : Nat)
    (h : sign_session env sk u n = (.ok (), sk', n')) :
    ∃ key s, get_ods_key env u = .ok (some key) ∧
      env.sign key (toString (env.clock n)) = .ok s ∧
      sk' = { sk with nonce := some (env.clock n), nonceSig := some s } ∧
      n' = n + 1 := by
  unfold sign_session at h
  cases hg : get_ods_key env u with
  | error e =>
    rw [hg] at h
    exact absurd h (by simp)
  | ok o =>
    cases o with
    | none =>
      rw [hg] at h
      exact absurd h (by simp)
    | some key =>
      rw [hg] at h
      dsimp only [get_timestamp] at h
      cases hs : env.sign key (toString (env.clock n)) with
      | error e =>
        rw [hs] at h
        exact absurd h (by simp)
      | ok sg =>
        rw [hs] at h
        simp only [Prod.mk.injEq] at h
        exact ⟨key, sg, rfl, hs, h.2.1.symm, h.2.2.symm⟩

/-- Witness for `sign_session_success` at `envOK`: the signer nonce is the
first clock reading (1000) and the signature is over its decimal string. -/
theorem sign_session_success_witness :
    ∃ key s, get_ods_key envOK "alice" = .ok (some key) ∧
      envOK.sign key (toString (envOK.clock 0)) = .ok s ∧
      ({ user := "alice", nonce := some 1000, nonceSig := some "1:1000" } : SessionKey) =
        { user := "alice", nonce := some (envOK.clock 0), nonceSig := some s } ∧
      (1 : Nat) = 0 + 1 :=
  sign_session_success envOK { user := "alice", nonce := none, nonceSig := none } "alice" 0
    { user := "alice", nonce := some 1000, nonceSig := some "1:1000" } 1 (by decide)

/-- Claim C10: `sign_session` writes the credential only after matching and
signing have both succeeded; whenever it exits with an error, the passed
credential's fields are unchanged. -/
theorem sign_session_error_leaves_credential (env : Env) (sk : SessionKey)
    (u : String) (n : Nat)
    (h : ∃ e, (sign_session env sk u n).1 = Except.error e) :
    (sign_session env sk u n).2.1 = sk := by
  obtain ⟨e, he⟩ := h
  exact sign_session_error_unchanged env sk u n e he

/-- Witness for `sign_session_error_leaves_credential`: with an unknown
user, `sign_session` fails and the credential is untouched. -/
theorem sign_session_error_leaves_credential_witness :
    (∃ e, (sign_session envBad { user := "alice", nonce := none, nonceSig := none }
      "alice" 0).1 = Except.error e) ∧
    (sign_session envBad { user := "alice", nonce := none, nonceSig := none }
      "alice" 0).2.1 = { user := "alice", nonce := none, nonceSig := none } :=
  ⟨⟨.ldapError "Could not query alice from ODS!", by decide⟩,
   sign_session_error_leaves_credential envBad
     { user := "alice", nonce := none, nonceSig := none } "alice" 0
     ⟨.ldapError "Could not query alice from ODS!", by decide⟩⟩

/-- Whether a `get_ods_key` result is a `None` return. -/
def returns_none_key : Except PyErr (Option AgentKey) → Bool
  | .ok none => true
  | _ => false

/-- Whether a `get_ods_key` result is an `AuthorizationError`. -/
def is_auth_error_result : Except PyErr (Option AgentKey) → Bool
  | .error (.authorizationError _) => true
  | _ => false

/-- Whether a `sign_session` outcome is an `AuthorizationError`. -/
def raises_authorization_error : Except PyErr Unit → Bool
  | .error (.authorizationError _) => true
  | _ => false

/-- `get_ods_key` never returns `None`: every branch either returns a key
from the agent or raises. -/
theorem get_ods_key_not_none (env : Env) (u : String) :
    returns_none_key (get_ods_key env u) = false := by
  unfold get_ods_key
  repeat first | rfl | split

/-- `get_ods_key` never raises `AuthorizationError`. -/
theorem get_ods_key_not_auth_error (env : Env) (u : String) :
    is_auth_error_result (get_ods_key env u) = false := by
  unfold get_ods_key
  repeat first | rfl | split

/-- Claim C9: the `AuthorizationError` branch of `sign_session` is
unreachable: `get_ods_key` never returns `None` (it returns a key or
raises), so `sign_session` never produces an `AuthorizationError`. -/
theorem sign_session_auth_error_unreachable (env : Env) (u : String)
    (sk : SessionKey) (n : Nat) :
    returns_none_key (get_ods_key env u) = false ∧
    raises_authorization_error (sign_session env sk u n).1 = false := by
  refine ⟨get_ods_key_not_none env u, ?_⟩
  unfold sign_session
  cases hg : get_ods_key env u with
  | error e =>
    have h2 := get_ods_key_not_auth_error env u
    rw [hg] at h2
    cases e <;> simp_all [is_auth_error_result, raises_authorization_error]
  | ok o =>
    cases o with
    | none =>
      have h1 := get_ods_key_not_none env u
      rw [hg] at h1
      simp [returns_none_key] at h1
    | some key =>
      dsimp only [get_timestamp]
      cases hs : env.sign key (toString (env.clock n)) <;> rfl

/-- Claim C4 counterexample: when directory and agent are reachable but no
agent key matches, `get_ods_key` does not return a distinct `NotFound`
kind — it raises `AgentError`, the same exception class produced when the
agent connection cannot be established (the class also covers the
no-match-and-no-socket case). -/
theorem get_ods_key_no_match_kind_counterexample :
    get_ods_key envNoMatch "alice" = .error (.agentError no_signable_keys_msg) ∧
    get_ods_key envNoSock "alice" = .error (.agentError ssh_auth_sock_msg) ∧
    get_ods_key envUnreach "alice" =
      .error (.agentError (agent_unreachable_msg "socket missing")) :=
  ⟨by decide, by decide, by decide⟩

/-- Claim C4 (amended): when the directory and agent are both reachable but
no agent key matches any directory record, `get_ods_key` raises
`AgentError` — the same exception class used when the agent connection
cannot be established — with a message selected by whether `SSH_AUTH_SOCK`
is set; there is no distinct `NotFound` kind. -/
theorem get_ods_key_no_match_agent_error :
    (∀ (env : Env) (u r : String) (pubs : List RSAKeyM) (keys : List AgentKey),
      env.odsGetUser u = some r →
      parse_ldap_pubkeys env (env.odsQueryKeys u) = .ok pubs →
      env.agent = .ok keys →
      (find_matching_key env pubs keys).1 = .ok none →
      get_ods_key env u = .error (.agentError
        (match env.sshAuthSock with
         | none => ssh_auth_sock_msg
         | some _ => no_signable_keys_msg))) ∧
    (∀ (env : Env) (u r e : String) (pubs : List RSAKeyM),
      env.odsGetUser u = some r →
      parse_ldap_pubkeys env (env.odsQueryKeys u) = .ok pubs →
      env.agent = .error e →
      get_ods_key env u = .error (.agentError (agent_unreachable_msg e))) := by
  constructor
  · intro env u r pubs keys husr hparse hagent hnm
    simp only [get_ods_key, husr, hparse, hagent, hnm]
    cases env.sshAuthSock <;> rfl
  · intro env u r e pubs husr hparse hagent
    simp only [get_ods_key, husr, hparse, hagent]

/-- Witness for `get_ods_key_no_match_agent_error` at concrete worlds with
no matching key (socket unset) and with an unreachable agent. -/
theorem get_ods_key_no_match_agent_error_witness :
    get_ods_key envNoSock "alice" = .error (.agentError
      (match envNoSock.sshAuthSock with
       | none => ssh_auth_sock_msg
       | some _ => no_signable_keys_msg)) ∧
    get_ods_key envUnreach "alice" =
      .error (.agentError (agent_unreachable_msg "socket missing")) :=
  ⟨get_ods_key_no_match_agent_error.1 envNoSock "alice" "rec" [{ data := "AAAA" }]
     [{ id := 0 }, { id := 1 }] rfl (by decide) rfl (by decide),
   get_ods_key_no_match_agent_error.2 envUnreach "alice" "rec" "socket missing"
     [{ data := "AAAA" }] rfl (by decide) rfl⟩

/-- Claim C5 counterexample: a successful acquisition path opens the agent
connection and emits no close event — the source contains no `close()`
call, so the connection is not released on this (or any) exit path. -/
theorem get_ods_key_connection_left_open_counterexample :
    get_ods_key envOK "alice" = .ok (some { id := 1 }) ∧
    get_ods_key_events envOK "alice" = [REvent.agentOpen] :=
  ⟨by decide, by decide⟩

/-- Claim C5 (amended): the agent connection opened by `get_ods_key` is
never explicitly closed on any exit path — the only connection event any
run can emit is the open event. -/
theorem get_ods_key_never_closes (env : Env) (u : String) (e : REvent)
    (he : e ∈ get_ods_key_events env u) : e = REvent.agentOpen := by
  unfold get_ods_key_events at he
  repeat' split at he
  all_goals simp_all

/-- Witness for `get_ods_key_never_closes`: the event emitted by the
successful run in `envOK` is the open event. -/
theorem get_ods_key_never_closes_witness :
    REvent.agentOpen ∈ get_ods_key_events envOK "alice" ∧
    REvent.agentOpen = REvent.agentOpen :=
  ⟨by decide, get_ods_key_never_closes envOK "alice" REvent.agentOpen (by decide)⟩

/-- Claim C6: `get_ods_key` raises `LDAPError` exactly when the directory
does not know the identity; a known identity, even with zero registered
keys, never produces `LDAPError`. -/
theorem get_ods_key_ldap_error_iff (env : Env) (u : String) :
    (∃ m, get_ods_key env u = .error (.ldapError m)) ↔ env.odsGetUser u = none := by
  constructor
  · rintro ⟨m, hm⟩
    cases h : env.odsGetUser u with
    | none => rfl
    | some r =>
      exfalso
      unfold get_ods_key at hm
      rw [h] at hm
      dsimp only at hm
      repeat' split at hm
      all_goals simp_all
  · intro h
    refine ⟨"Could not query " ++ u ++ " from ODS!", ?_⟩
    unfold get_ods_key
    rw [h]

/-- Witness for `get_ods_key_ldap_error_iff` at a directory that knows
nobody. -/
theorem get_ods_key_ldap_error_iff_witness :
    (∃ m, get_ods_key envBad "bob" = .error (.ldapError m)) ↔
      envBad.odsGetUser "bob" = none :=
  get_ods_key_ldap_error_iff envBad "bob"

/-- `parse_ldap_pubkeys` depends on the environment only through
`parseRSAKey`. -/
theorem parse_ldap_pubkeys_congr (env1 env2 : Env)
    (hp : env1.parseRSAKey = env2.parseRSAKey) (raw : List String) :
    parse_ldap_pubkeys env1 raw = parse_ldap_pubkeys env2 raw := by
  induction raw with
  | nil => rfl
  | cons key rest ih => simp [parse_ldap_pubkeys, hp, ih]

/-- `find_matching_key` depends on the environment only through `sign` and
`verify`. -/
theorem find_matching_key_congr (env1 env2 : Env)
    (hs : env1.sign = env2.sign) (hv : env1.verify = env2.verify)
    (pubs : List RSAKeyM) (keys : List AgentKey) :
    find_matching_key env1 pubs keys = find_matching_key env2 pubs keys := by
  induction keys with
  | nil => rfl
  | cons k rest ih => simp [find_matching_key, hs, hv, ih]

/-- Discarding the directory records that do not start with `ssh-rsa`
leaves `parse_ldap_pubkeys` unchanged: non-RSA records are ignored. -/
theorem parse_ldap_pubkeys_filter (env : Env) (raw : List String) :
    parse_ldap_pubkeys env (raw.filter (fun k => pyStartsWith k "ssh-rsa")) =
      parse_ldap_pubkeys env raw := by
  induction raw with
  | nil => rfl
  | cons key rest ih =>
    cases h : pyStartsWith key "ssh-rsa" <;>
      simp [List.filter, h, parse_ldap_pubkeys, ih]

/-- Claim C7: only directory records of the RSA key type are match
candidates: removing every non-`ssh-rsa` record from the directory answer
does not change the result of `get_ods_key`, so an agent key is never
matched against a non-RSA record. -/
theorem get_ods_key_ignores_non_rsa (env : Env) (u : String) :
    get_ods_key { env with odsQueryKeys := fun v =>
        (env.odsQueryKeys v).filter (fun k => pyStartsWith k "ssh-rsa") } u =
      get_ods_key env u := by
  unfold get_ods_key
  simp only [find_matching_key_congr
      { env with odsQueryKeys := fun v =>
          (env.odsQueryKeys v).filter (fun k => pyStartsWith k "ssh-rsa") } env rfl rfl,
    parse_ldap_pubkeys_congr
      { env with odsQueryKeys := fun v =>
          (env.odsQueryKeys v).filter (fun k => pyStartsWith k "ssh-rsa") } env rfl,
    parse_ldap_pubkeys_filter]

/-- Claim C8: matching is deterministic — two environments that agree on
the directory answers, the agent key list, the signing and verification
behaviour and the socket variable (they may disagree on the clock) give
the same `get_ods_key` result. -/
theorem get_ods_key_deterministic (env1 env2 : Env) (u : String)
    (h1 : env1.odsGetUser = env2.odsGetUser)
    (h2 : env1.odsQueryKeys = env2.odsQueryKeys)
    (h3 : env1.parseRSAKey = env2.parseRSAKey)
    (h4 : env1.agent = env2.agent)
    (h5 : env1.sign = env2.sign)
    (h6 : env1.verify = env2.verify)
    (h7 : env1.sshAuthSock = env2.sshAuthSock) :
    get_ods_key env1 u = get_ods_key env2 u := by
  unfold get_ods_key
  simp only [h1, h2, h4, h7,
    parse_ldap_pubkeys_congr env1 env2 h3,
    find_matching_key_congr env1 env2 h5 h6]

/-- Witness for `get_ods_key_deterministic`: two worlds differing only in
their clocks select the same key. -/
theorem get_ods_key_deterministic_witness :
    get_ods_key envOK "alice" = get_ods_key envClock2 "alice" :=
  get_ods_key_deterministic envOK envClock2 "alice" rfl rfl rfl rfl rfl rfl rfl

end SessionKeyHelper
